import Mathlib

/-!
Verification of the SAPAN stock-screener core (Go repository `sapan`).

The Go code computes with `float64`.  Prices and indicator values are
modelled as exact rationals (ℚ), the usual idealization of the spec's
real-valued contracts.  The single place where IEEE-754 behaviour is
observable for the claims under study is division by an exactly-zero
denominator in the pinbar ratio tests of
`internal/strategy/candlestick.go`; `goRatioGT` / `goRatioGE` model that
case explicitly (x/0 is +Inf for x>0, NaN for x=0, -Inf for x<0, and every
comparison against NaN is false).  All other divisions in the translated
code run with nonzero denominators on the paths the theorems talk about.

Go slices become `List ℚ`; `prices[a:b]` becomes `(prices.drop a).take (b-a)`;
Go loops that accumulate a value become `List.foldl`; early-`return`
chains become nested `if`s.  Struct zero values (false / 0 / "" / nil)
become the structures' default field values.
-/

set_option maxHeartbeats 1000000

/-- One candlestick from `models/Candle.go`.  The Go struct also carries a
`Date` and a `Volume`; neither is read by any of the indicator, pattern or
validation code under verification, so they are omitted from the model. -/
structure Candle where
  Open : ℚ
  High : ℚ
  Low : ℚ
  Close : ℚ
deriving DecidableEq

instance : Inhabited Candle := ⟨⟨0, 0, 0, 0⟩⟩

/-- Go `float64` semantics of the comparison `num/den > thr` for a finite
threshold `thr`: with `den = 0` the quotient is +Inf (num>0), NaN (num=0)
or -Inf (num<0), so the comparison holds exactly when `0 < num`; with
`den ≠ 0` it is the exact comparison. -/
def goRatioGT (num den thr : ℚ) : Bool :=
  if den = 0 then (if 0 < num then true else false)
  else decide (num / den > thr)

/-- Go `float64` semantics of `num/den ≥ thr`, as in `goRatioGT`. -/
def goRatioGE (num den thr : ℚ) : Bool :=
  if den = 0 then (if 0 < num then true else false)
  else decide (num / den ≥ thr)

/-- `EMACalculator.Calculate` from `internal/indicators/ema.go`: returns 0
when there are fewer prices than `period`; otherwise seeds with the simple
average of the first `period` prices and folds the EMA recurrence over the
remaining prices. -/
def EMACalculator.Calculate (prices : List ℚ) (period : Nat) : ℚ :=
  if prices.length < period then 0
  else
    let multiplier : ℚ := 2 / ((period : ℚ) + 1)
    let ema0 : ℚ := (prices.take period).sum / (period : ℚ)
    (prices.drop period).foldl (fun ema price => price * multiplier + ema * (1 - multiplier)) ema0

/-- `EMACalculator.ValidateTrend` from `internal/indicators/ema.go`:
uptrend order 20 > 50 > 100 > 200. -/
def EMACalculator.ValidateTrend (prices : List ℚ) : Bool :=
  let ema20 := EMACalculator.Calculate prices 20
  let ema50 := EMACalculator.Calculate prices 50
  let ema100 := EMACalculator.Calculate prices 100
  let ema200 := EMACalculator.Calculate prices 200
  decide (ema20 > ema50) && decide (ema50 > ema100) && decide (ema100 > ema200)

/-- `EMACalculator.ValidateDowntrend` from `internal/indicators/ema.go`:
downtrend order 20 < 50 < 100 < 200. -/
def EMACalculator.ValidateDowntrend (prices : List ℚ) : Bool :=
  let ema20 := EMACalculator.Calculate prices 20
  let ema50 := EMACalculator.Calculate prices 50
  let ema100 := EMACalculator.Calculate prices 100
  let ema200 := EMACalculator.Calculate prices 200
  decide (ema20 < ema50) && decide (ema50 < ema100) && decide (ema100 < ema200)

/-- `RSICalculator.Calculate` from the RSI source file: per-step
gains/losses, simple-average seed over the first `period` steps, Wilder
smoothing for the rest, `RSI = 100` when the smoothed average loss is 0. -/
def RSICalculator.Calculate (prices : List ℚ) (period : Nat) : ℚ :=
  if prices.length < period + 1 then 0
  else
    let changes := List.zipWith (fun prev cur => cur - prev) prices prices.tail
    let gains := changes.map (fun change => if 0 < change then change else 0)
    let losses := changes.map (fun change => if 0 < change then 0 else -change)
    if gains.length < period then 0
    else
      let avgGain0 : ℚ := (gains.take period).sum / (period : ℚ)
      let avgLoss0 : ℚ := (losses.take period).sum / (period : ℚ)
      let avgs :=
        ((gains.drop period).zip (losses.drop period)).foldl
          (fun avg gl =>
            ((avg.1 * ((period : ℚ) - 1) + gl.1) / (period : ℚ),
             (avg.2 * ((period : ℚ) - 1) + gl.2) / (period : ℚ)))
          (avgGain0, avgLoss0)
      if avgs.2 = 0 then 100
      else 100 - 100 / (1 + avgs.1 / avgs.2)

/-- Result struct of `StochasticRSICalculator.Calculate`; the Go zero
value has K = 0, D = 0, Crossover = false. -/
structure StochasticRSIResult where
  K : ℚ := 0
  D : ℚ := 0
  Crossover : Bool := false
deriving DecidableEq

/-- Highest value of an RSI window, as the Go loop computes it: start from
the window's first element and fold `max` over the rest (0 for an empty
window, which the call sites never produce). -/
def StochasticRSICalculator.windowHigh : List ℚ → ℚ
  | [] => 0
  | x :: xs => xs.foldl max x

/-- Lowest value of an RSI window, mirroring `windowHigh`. -/
def StochasticRSICalculator.windowLow : List ℚ → ℚ
  | [] => 0
  | x :: xs => xs.foldl min x

/-- The %K value of one RSI window (its last element is the current RSI):
`(RSI - lowest)/(highest - lowest) * 100`, substituting 50 when the
window's highest equals its lowest. -/
def StochasticRSICalculator.stochKOf (w : List ℚ) : ℚ :=
  let highestRSI := StochasticRSICalculator.windowHigh w
  let lowestRSI := StochasticRSICalculator.windowLow w
  let currentRSI := w.getLastD 0
  if highestRSI = lowestRSI then 50
  else (currentRSI - lowestRSI) / (highestRSI - lowestRSI) * 100

/-- The RSI trajectory built by `StochasticRSICalculator.Calculate`:
for each `i` from `rsiPeriod` to `len-1`, the RSI of the slice
`prices[i-rsiPeriod : i+1]`. -/
def StochasticRSICalculator.rsiSequence (prices : List ℚ) (rsiPeriod : Nat) : List ℚ :=
  (List.range' rsiPeriod (prices.length - rsiPeriod)).map
    (fun i => RSICalculator.Calculate ((prices.drop (i - rsiPeriod)).take (rsiPeriod + 1)) rsiPeriod)

/-- The %K trajectory built by `StochasticRSICalculator.Calculate`: for
each `i` from `stochKPeriod-1` to the end of the RSI trajectory, the %K of
the window `rsiValues[i-stochKPeriod+1 : i+1]`. -/
def StochasticRSICalculator.stochKValues (prices : List ℚ) (rsiPeriod stochKPeriod : Nat) : List ℚ :=
  let rsiValues := StochasticRSICalculator.rsiSequence prices rsiPeriod
  (List.range' (stochKPeriod - 1) (rsiValues.length - (stochKPeriod - 1))).map
    (fun i => StochasticRSICalculator.stochKOf ((rsiValues.drop (i - (stochKPeriod - 1))).take stochKPeriod))

/-- `StochasticRSICalculator.Calculate` from the Stochastic RSI source
file: %K / %D at the last bar plus the crossover flag
(`prevK < prevD && currentK > currentD && prevK < 30`). -/
def StochasticRSICalculator.Calculate (prices : List ℚ) (rsiPeriod stochKPeriod stochDPeriod : Nat) :
    StochasticRSIResult :=
  if prices.length < rsiPeriod + stochKPeriod + stochDPeriod then {}
  else
    let rsiValues := StochasticRSICalculator.rsiSequence prices rsiPeriod
    if rsiValues.length < stochKPeriod + stochDPeriod then {}
    else
      let ks := StochasticRSICalculator.stochKValues prices rsiPeriod stochKPeriod
      if ks.length < stochDPeriod then {}
      else
        let currentK := ks.getLastD 0
        let currentD := (ks.drop (ks.length - stochDPeriod)).sum / (stochDPeriod : ℚ)
        let crossover :=
          if 2 ≤ ks.length then
            let prevK := ks.getD (ks.length - 2) 0
            let prevD :=
              if stochDPeriod + 1 ≤ ks.length then
                ((ks.dropLast.drop (ks.dropLast.length - stochDPeriod)).sum) / (stochDPeriod : ℚ)
              else 0
            decide (prevK < prevD) && decide (currentK > currentD) && decide (prevK < 30)
          else false
        { K := currentK, D := currentD, Crossover := crossover }

/-- `StochasticRSICalculator.IsOversoldWithCrossover`: %K < 30 together
with the (bullish) crossover flag. -/
def StochasticRSICalculator.IsOversoldWithCrossover (prices : List ℚ)
    (rsiPeriod stochKPeriod stochDPeriod : Nat) : Bool :=
  let result := StochasticRSICalculator.Calculate prices rsiPeriod stochKPeriod stochDPeriod
  decide (result.K < 30) && result.Crossover

/-- `StochasticRSICalculator.IsOverboughtWithCrossover`: %K > 70 together
with the same (bullish) crossover flag. -/
def StochasticRSICalculator.IsOverboughtWithCrossover (prices : List ℚ)
    (rsiPeriod stochKPeriod stochDPeriod : Nat) : Bool :=
  let result := StochasticRSICalculator.Calculate prices rsiPeriod stochKPeriod stochDPeriod
  decide (result.K > 70) && result.Crossover

/-- Result struct of `MACDCalculator.Calculate` from
`internal/indicators/macd.go`; the Go zero value is all zeroes. -/
structure MACDResult where
  MACD : ℚ := 0
  Signal : ℚ := 0
  Histogram : ℚ := 0
deriving DecidableEq

/-- `MACDCalculator.Calculate` from `internal/indicators/macd.go`:
MACD = fast EMA - slow EMA; the signal line is the EMA (period
`signalPeriod`) of the MACD values recomputed on every prefix
`prices[:i+1]` for `i` from `slowPeriod` to `len-1`, falling back to
`macd * 0.9` when that trajectory is shorter than `signalPeriod`. -/
def MACDCalculator.Calculate (prices : List ℚ) (fastPeriod slowPeriod signalPeriod : Nat) :
    MACDResult :=
  if prices.length < slowPeriod then {}
  else
    let emaFast := EMACalculator.Calculate prices fastPeriod
    let emaSlow := EMACalculator.Calculate prices slowPeriod
    let macd := emaFast - emaSlow
    let macdValues :=
      (List.range' slowPeriod (prices.length - slowPeriod)).map
        (fun i =>
          EMACalculator.Calculate (prices.take (i + 1)) fastPeriod -
            EMACalculator.Calculate (prices.take (i + 1)) slowPeriod)
    let signal :=
      if signalPeriod ≤ macdValues.length then EMACalculator.Calculate macdValues signalPeriod
      else macd * (9 / 10)
    { MACD := macd, Signal := signal, Histogram := macd - signal }

/-- `MACDCalculator.IsBullMarket`: MACD line above the signal line. -/
def MACDCalculator.IsBullMarket (prices : List ℚ) (fastPeriod slowPeriod signalPeriod : Nat) : Bool :=
  let result := MACDCalculator.Calculate prices fastPeriod slowPeriod signalPeriod
  decide (result.MACD > result.Signal)

/-- The backward scan of `MACDCalculator.IsBearMarketAcceptable`: the Go
loop runs `j` from `len-1` downward, breaking at `j < 1`, stopping once
the count reaches 6, skipping prefixes shorter than `slowPeriod`, counting
prefixes whose MACD is at or below the signal, and breaking at the first
prefix whose MACD is above the signal.  The first argument of the scan is
the current Go index `j`; the second is the running count. -/
def MACDCalculator.bearScan (prices : List ℚ) (fastPeriod slowPeriod signalPeriod : Nat) :
    Nat → Nat → Nat
  | 0, count => count
  | j + 1, count =>
    if 6 ≤ count then count
    else
      let subCloses := prices.take (j + 2)
      if slowPeriod ≤ subCloses.length then
        let subResult := MACDCalculator.Calculate subCloses fastPeriod slowPeriod signalPeriod
        if subResult.MACD ≤ subResult.Signal then
          MACDCalculator.bearScan prices fastPeriod slowPeriod signalPeriod j (count + 1)
        else count
      else MACDCalculator.bearScan prices fastPeriod slowPeriod signalPeriod j count

/-- The mirror-image scan of `MACDCalculator.IsBullMarketAcceptable`,
counting prefixes whose MACD is at or above the signal. -/
def MACDCalculator.bullScan (prices : List ℚ) (fastPeriod slowPeriod signalPeriod : Nat) :
    Nat → Nat → Nat
  | 0, count => count
  | j + 1, count =>
    if 6 ≤ count then count
    else
      let subCloses := prices.take (j + 2)
      if slowPeriod ≤ subCloses.length then
        let subResult := MACDCalculator.Calculate subCloses fastPeriod slowPeriod signalPeriod
        if subResult.MACD ≥ subResult.Signal then
          MACDCalculator.bullScan prices fastPeriod slowPeriod signalPeriod j (count + 1)
        else count
      else MACDCalculator.bullScan prices fastPeriod slowPeriod signalPeriod j count

/-- `MACDCalculator.IsBearMarketAcceptable` from
`internal/indicators/macd.go`: true immediately in a bull market,
otherwise true iff the backward bear scan counts at most 5. -/
def MACDCalculator.IsBearMarketAcceptable (prices : List ℚ)
    (fastPeriod slowPeriod signalPeriod : Nat) : Bool :=
  let result := MACDCalculator.Calculate prices fastPeriod slowPeriod signalPeriod
  if result.MACD > result.Signal then true
  else
    decide (MACDCalculator.bearScan prices fastPeriod slowPeriod signalPeriod
      (prices.length - 1) 0 ≤ 5)

/-- `MACDCalculator.IsBullMarketAcceptable` from
`internal/indicators/macd.go`, mirror image of the bear version. -/
def MACDCalculator.IsBullMarketAcceptable (prices : List ℚ)
    (fastPeriod slowPeriod signalPeriod : Nat) : Bool :=
  let result := MACDCalculator.Calculate prices fastPeriod slowPeriod signalPeriod
  if result.MACD < result.Signal then true
  else
    decide (MACDCalculator.bullScan prices fastPeriod slowPeriod signalPeriod
      (prices.length - 1) 0 ≤ 5)

/-- Spec-side restatement of the EMA contract, following the spec's words
(§4.1): sentinel 0 when the series is shorter than `period`; otherwise
seed with the arithmetic mean of the first `period` prices and apply, for
each index `i` from `period` to `len-1`, the recurrence
`ema = price[i]·α + ema·(1-α)` with `α = 2/(period+1)`.  To be compared
with the translated `EMACalculator.Calculate`. -/
def emaSpecRecurrence (prices : List ℚ) (period : Nat) : ℚ :=
  if prices.length < period then 0
  else
    (List.range' period (prices.length - period)).foldl
      (fun ema i =>
        prices.getD i 0 * (2 / ((period : ℚ) + 1)) + ema * (1 - 2 / ((period : ℚ) + 1)))
      ((prices.take period).sum / (period : ℚ))

/-- The MACD result of the truncated price history ending at Go index `j`
(the prefix `prices[:j+1]`), used to state the market-duration spec. -/
def MACDCalculator.macdUpTo (prices : List ℚ) (fastPeriod slowPeriod signalPeriod j : Nat) :
    MACDResult :=
  MACDCalculator.Calculate (prices.take (j + 1)) fastPeriod slowPeriod signalPeriod

/-- The Go indices visited by the backward market-duration scans, in scan
order: `[j, j-1, ..., 1]`. -/
def downFrom : Nat → List Nat
  | 0 => []
  | j + 1 => (j + 1) :: downFrom j

/-- Spec-side count for the bear-market-duration check, following the
spec's words (§4.1 / claim C4): scanning backward from the last bar over
the prefixes long enough for MACD, the number of consecutive bars whose
MACD is at or below the signal, stopping at the first bullish prefix and
capped at 6. -/
def specBearStreak (prices : List ℚ) (fastPeriod slowPeriod signalPeriod : Nat) : Nat :=
  min 6
    (((downFrom (prices.length - 1)).filter (fun j => decide (slowPeriod ≤ j + 1))).takeWhile
      (fun j =>
        decide ((MACDCalculator.macdUpTo prices fastPeriod slowPeriod signalPeriod j).MACD ≤
          (MACDCalculator.macdUpTo prices fastPeriod slowPeriod signalPeriod j).Signal))).length

/-- Spec-side count for the bull-market-duration check, mirror image of
`specBearStreak`. -/
def specBullStreak (prices : List ℚ) (fastPeriod slowPeriod signalPeriod : Nat) : Nat :=
  min 6
    (((downFrom (prices.length - 1)).filter (fun j => decide (slowPeriod ≤ j + 1))).takeWhile
      (fun j =>
        decide ((MACDCalculator.macdUpTo prices fastPeriod slowPeriod signalPeriod j).MACD ≥
          (MACDCalculator.macdUpTo prices fastPeriod slowPeriod signalPeriod j).Signal))).length

/-- `PatternType` from `internal/strategy/candlestick.go` (Go iota enum;
`NoPattern` is the zero value). -/
inductive PatternType where
  | NoPattern
  | Long2CandlestickReversal
  | Short2CandlestickReversal
  | LongPinbarReversal
  | ShortPinbarReversal
deriving DecidableEq

/-- `getLowestEMA`: the lowest of the four EMA levels, via the Go
if-chain. -/
def CandlestickPatternDetector.getLowestEMA (ema20 ema50 ema100 ema200 : ℚ) : ℚ :=
  let s1 := ema20
  let s2 := if ema50 < s1 then ema50 else s1
  let s3 := if ema100 < s2 then ema100 else s2
  if ema200 < s3 then ema200 else s3

/-- `getHighestEMA`: the highest of the four EMA levels, via the Go
if-chain. -/
def CandlestickPatternDetector.getHighestEMA (ema20 ema50 ema100 ema200 : ℚ) : ℚ :=
  let s1 := ema20
  let s2 := if ema50 > s1 then ema50 else s1
  let s3 := if ema100 > s2 then ema100 else s2
  if ema200 > s3 then ema200 else s3

/-- `isReversalBodyAboveSupport`: the reversal candle's body midpoint lies
above the lowest EMA. -/
def CandlestickPatternDetector.isReversalBodyAboveSupport (candle : Candle)
    (ema20 ema50 ema100 ema200 : ℚ) : Bool :=
  let emaSupport := CandlestickPatternDetector.getLowestEMA ema20 ema50 ema100 ema200
  decide ((candle.Open + candle.Close) / 2 > emaSupport)

/-- `isTailPiercingSupport`: the reversal candle's low pierces both the
lowest EMA and the previous candle's low. -/
def CandlestickPatternDetector.isTailPiercingSupport (reversalCandle previousCandle : Candle)
    (ema20 ema50 ema100 ema200 : ℚ) : Bool :=
  let emaSupport := CandlestickPatternDetector.getLowestEMA ema20 ema50 ema100 ema200
  decide (reversalCandle.Low < emaSupport) && decide (reversalCandle.Low < previousCandle.Low)

/-- `isBullishConfirmation`: confirmation closes above the reversal
candle's high, is bullish, and has a higher low than the reversal. -/
def CandlestickPatternDetector.isBullishConfirmation (confirmationCandle reversalCandle : Candle) :
    Bool :=
  if confirmationCandle.Close ≤ reversalCandle.High then false
  else if confirmationCandle.Close ≤ confirmationCandle.Open then false
  else decide (confirmationCandle.Low > reversalCandle.Low)

/-- `isReversalBodyBelowResistance`: mirror of
`isReversalBodyAboveSupport` against the highest EMA. -/
def CandlestickPatternDetector.isReversalBodyBelowResistance (candle : Candle)
    (ema20 ema50 ema100 ema200 : ℚ) : Bool :=
  let emaResistance := CandlestickPatternDetector.getHighestEMA ema20 ema50 ema100 ema200
  decide ((candle.Open + candle.Close) / 2 < emaResistance)

/-- `isTailPiercingResistance`: the reversal candle's high pierces both
the highest EMA and the previous candle's high. -/
def CandlestickPatternDetector.isTailPiercingResistance (reversalCandle previousCandle : Candle)
    (ema20 ema50 ema100 ema200 : ℚ) : Bool :=
  let emaResistance := CandlestickPatternDetector.getHighestEMA ema20 ema50 ema100 ema200
  decide (reversalCandle.High > emaResistance) && decide (reversalCandle.High > previousCandle.High)

/-- `isBearishConfirmation`: confirmation closes below the reversal
candle's low, is bearish, and has a lower high than the reversal. -/
def CandlestickPatternDetector.isBearishConfirmation (confirmationCandle reversalCandle : Candle) :
    Bool :=
  if confirmationCandle.Close ≥ reversalCandle.Low then false
  else if confirmationCandle.Close ≥ confirmationCandle.Open then false
  else decide (confirmationCandle.High < reversalCandle.High)

/-- `isBullishPinbar`: body at most 30% and lower wick at least 60% of
the candle's total range, with Go float semantics for a zero range
(`goRatioGT` / `goRatioGE`). -/
def CandlestickPatternDetector.isBullishPinbar (candle : Candle) : Bool :=
  let bodySize := |candle.Close - candle.Open|
  let totalRange := candle.High - candle.Low
  if goRatioGT bodySize totalRange (3 / 10) then false
  else
    let lowerWick := min candle.Open candle.Close - candle.Low
    goRatioGE lowerWick totalRange (6 / 10)

/-- `isBearishPinbar`: body at most 30% and upper wick at least 60% of
the candle's total range, with Go float semantics for a zero range. -/
def CandlestickPatternDetector.isBearishPinbar (candle : Candle) : Bool :=
  let bodySize := |candle.Close - candle.Open|
  let totalRange := candle.High - candle.Low
  if goRatioGT bodySize totalRange (3 / 10) then false
  else
    let upperWick := candle.High - max candle.Open candle.Close
    goRatioGE upperWick totalRange (6 / 10)

/-- `DetectLong2CandlestickReversal`: rules A, B, C on the last three
candles against the lowest EMA as support. -/
def CandlestickPatternDetector.DetectLong2CandlestickReversal (candles : List Candle)
    (ema20 ema50 ema100 ema200 : ℚ) : Bool :=
  if candles.length < 3 then false
  else
    let lastCandle := candles.getD (candles.length - 1) default
    let secondCandle := candles.getD (candles.length - 2) default
    let firstCandle := candles.getD (candles.length - 3) default
    CandlestickPatternDetector.isReversalBodyAboveSupport secondCandle ema20 ema50 ema100 ema200 &&
      CandlestickPatternDetector.isTailPiercingSupport secondCandle firstCandle
        ema20 ema50 ema100 ema200 &&
      CandlestickPatternDetector.isBullishConfirmation lastCandle secondCandle

/-- `DetectShort2CandlestickReversal`: mirror image of the long variant
against the highest EMA as resistance. -/
def CandlestickPatternDetector.DetectShort2CandlestickReversal (candles : List Candle)
    (ema20 ema50 ema100 ema200 : ℚ) : Bool :=
  if candles.length < 3 then false
  else
    let lastCandle := candles.getD (candles.length - 1) default
    let secondCandle := candles.getD (candles.length - 2) default
    let firstCandle := candles.getD (candles.length - 3) default
    CandlestickPatternDetector.isReversalBodyBelowResistance secondCandle ema20 ema50 ema100 ema200 &&
      CandlestickPatternDetector.isTailPiercingResistance secondCandle firstCandle
        ema20 ema50 ema100 ema200 &&
      CandlestickPatternDetector.isBearishConfirmation lastCandle secondCandle

/-- `DetectLongPinbarReversal`: bullish pinbar on the second-to-last
candle, body midpoint above and low below the lowest EMA, bullish
confirmation on the last candle. -/
def CandlestickPatternDetector.DetectLongPinbarReversal (candles : List Candle)
    (ema20 ema50 ema100 ema200 : ℚ) : Bool :=
  if candles.length < 3 then false
  else
    let pinbar := candles.getD (candles.length - 2) default
    let confirmation := candles.getD (candles.length - 1) default
    if !CandlestickPatternDetector.isBullishPinbar pinbar then false
    else
      let emaSupport := CandlestickPatternDetector.getLowestEMA ema20 ema50 ema100 ema200
      if (pinbar.Open + pinbar.Close) / 2 ≤ emaSupport then false
      else if pinbar.Low ≥ emaSupport then false
      else CandlestickPatternDetector.isBullishConfirmation confirmation pinbar

/-- `DetectShortPinbarReversal`: mirror image of the long pinbar variant
with the upper wick and the highest EMA. -/
def CandlestickPatternDetector.DetectShortPinbarReversal (candles : List Candle)
    (ema20 ema50 ema100 ema200 : ℚ) : Bool :=
  if candles.length < 3 then false
  else
    let pinbar := candles.getD (candles.length - 2) default
    let confirmation := candles.getD (candles.length - 1) default
    if !CandlestickPatternDetector.isBearishPinbar pinbar then false
    else
      let emaResistance := CandlestickPatternDetector.getHighestEMA ema20 ema50 ema100 ema200
      if (pinbar.Open + pinbar.Close) / 2 ≥ emaResistance then false
      else if pinbar.High ≤ emaResistance then false
      else CandlestickPatternDetector.isBearishConfirmation confirmation pinbar

/-- `DetectAllPatterns`: checks the four variants in fixed priority order
(Long2, Short2, LongPinbar, ShortPinbar), returning the first match or
`NoPattern`. -/
def CandlestickPatternDetector.DetectAllPatterns (candles : List Candle)
    (ema20 ema50 ema100 ema200 : ℚ) : PatternType :=
  if candles.length < 3 then PatternType.NoPattern
  else if CandlestickPatternDetector.DetectLong2CandlestickReversal candles
      ema20 ema50 ema100 ema200 then
    PatternType.Long2CandlestickReversal
  else if CandlestickPatternDetector.DetectShort2CandlestickReversal candles
      ema20 ema50 ema100 ema200 then
    PatternType.Short2CandlestickReversal
  else if CandlestickPatternDetector.DetectLongPinbarReversal candles
      ema20 ema50 ema100 ema200 then
    PatternType.LongPinbarReversal
  else if CandlestickPatternDetector.DetectShortPinbarReversal candles
      ema20 ema50 ema100 ema200 then
    PatternType.ShortPinbarReversal
  else PatternType.NoPattern

/-- A concrete candle tail matching both the long 2-candlestick reversal
predicate and the long pinbar predicate (used to confirm the spec's
pattern-priority test). -/
def bothPatternTail : List Candle :=
  [⟨12, 13, 11, 12⟩, ⟨15, 19, 9, 17⟩, ⟨20, 22, 12, 21⟩]

/-- `ScenarioType` from `internal/strategy/candlestick.go`. -/
inductive ScenarioType where
  | LongScenario
  | ShortScenario
deriving DecidableEq

/-- `ValidationResult` from `internal/strategy/candlestick.go`; the
defaults are the Go zero values. -/
structure ValidationResult where
  IsValid : Bool := false
  EMATrendValid : Bool := false
  StochasticValid : Bool := false
  MACDValid : Bool := false
  PatternValid : Bool := false
  PatternType : PatternType := PatternType.NoPattern
  Symbol : String := ""
  ValidationMessage : String := ""
deriving DecidableEq

/-- `validateEMATrend` (Long EMA gate). -/
def SAPANStrategy.validateEMATrend (closes : List ℚ) : Bool :=
  EMACalculator.ValidateTrend closes

/-- `validateEMADowntrend` (Short EMA gate). -/
def SAPANStrategy.validateEMADowntrend (closes : List ℚ) : Bool :=
  EMACalculator.ValidateDowntrend closes

/-- `validateStochasticRSILong` (periods 5/3/3). -/
def SAPANStrategy.validateStochasticRSILong (closes : List ℚ) : Bool :=
  StochasticRSICalculator.IsOversoldWithCrossover closes 5 3 3

/-- `validateStochasticRSIShort` (periods 5/3/3). -/
def SAPANStrategy.validateStochasticRSIShort (closes : List ℚ) : Bool :=
  StochasticRSICalculator.IsOverboughtWithCrossover closes 5 3 3

/-- `validateMACDLong` (periods 50/100/9). -/
def SAPANStrategy.validateMACDLong (closes : List ℚ) : Bool :=
  MACDCalculator.IsBearMarketAcceptable closes 50 100 9

/-- `validateMACDShort` (periods 50/100/9). -/
def SAPANStrategy.validateMACDShort (closes : List ℚ) : Bool :=
  MACDCalculator.IsBullMarketAcceptable closes 50 100 9

/-- `extractClosingPrices`. -/
def SAPANStrategy.extractClosingPrices (candles : List Candle) : List ℚ :=
  candles.map Candle.Close

/-- `SAPANStrategy.validateSetup` from `internal/strategy/candlestick.go`:
the gate sequence (data sufficiency, EMA order, Stochastic RSI, MACD,
pattern) with the Go early returns; each early return carries exactly the
flags the Go code has set on `result` by that point. -/
def SAPANStrategy.validateSetup (symbol : String) (candles : List Candle)
    (scenario : ScenarioType) : ValidationResult :=
  let closes := SAPANStrategy.extractClosingPrices candles
  if closes.length < 200 then
    { Symbol := symbol, ValidationMessage := "Insufficient data for analysis" }
  else
    let emaValid :=
      match scenario with
      | ScenarioType.LongScenario => SAPANStrategy.validateEMATrend closes
      | ScenarioType.ShortScenario => SAPANStrategy.validateEMADowntrend closes
    if emaValid = false then
      { Symbol := symbol, EMATrendValid := false,
        ValidationMessage :=
          match scenario with
          | ScenarioType.LongScenario => "EMA trend not in uptrend order (20 > 50 > 100 > 200)"
          | ScenarioType.ShortScenario => "EMA trend not in downtrend order (20 < 50 < 100 < 200)" }
    else
      let stochValid :=
        match scenario with
        | ScenarioType.LongScenario => SAPANStrategy.validateStochasticRSILong closes
        | ScenarioType.ShortScenario => SAPANStrategy.validateStochasticRSIShort closes
      if stochValid = false then
        { Symbol := symbol, EMATrendValid := true, StochasticValid := false,
          ValidationMessage :=
            match scenario with
            | ScenarioType.LongScenario => "Stochastic RSI not in oversold region with crossover"
            | ScenarioType.ShortScenario => "Stochastic RSI not in overbought region with crossover" }
      else
        let macdValid :=
          match scenario with
          | ScenarioType.LongScenario => SAPANStrategy.validateMACDLong closes
          | ScenarioType.ShortScenario => SAPANStrategy.validateMACDShort closes
        if macdValid = false then
          { Symbol := symbol, EMATrendValid := true, StochasticValid := true, MACDValid := false,
            ValidationMessage :=
              match scenario with
              | ScenarioType.LongScenario =>
                  "MACD not in bull market or bear market exceeds 5 candlesticks"
              | ScenarioType.ShortScenario =>
                  "MACD not in bear market or bull market exceeds 5 candlesticks" }
        else
          let patternType :=
            CandlestickPatternDetector.DetectAllPatterns candles
              (EMACalculator.Calculate closes 20) (EMACalculator.Calculate closes 50)
              (EMACalculator.Calculate closes 100) (EMACalculator.Calculate closes 200)
          let patternValid :=
            match scenario with
            | ScenarioType.LongScenario =>
                decide (patternType = PatternType.Long2CandlestickReversal) ||
                  decide (patternType = PatternType.LongPinbarReversal)
            | ScenarioType.ShortScenario =>
                decide (patternType = PatternType.Short2CandlestickReversal) ||
                  decide (patternType = PatternType.ShortPinbarReversal)
          if patternValid = false then
            { Symbol := symbol, EMATrendValid := true, StochasticValid := true, MACDValid := true,
              PatternValid := false, PatternType := patternType,
              ValidationMessage :=
                match scenario with
                | ScenarioType.LongScenario => "Long reversal pattern not detected"
                | ScenarioType.ShortScenario => "Short reversal pattern not detected" }
          else
            { IsValid := true, EMATrendValid := true, StochasticValid := true, MACDValid := true,
              PatternValid := true, PatternType := patternType, Symbol := symbol,
              ValidationMessage :=
                match scenario with
                | ScenarioType.LongScenario => "All SAPAN long strategy conditions met"
                | ScenarioType.ShortScenario => "All SAPAN short strategy conditions met" }

/-- `SAPANStrategy.ValidateLongSetup`. -/
def SAPANStrategy.ValidateLongSetup (symbol : String) (candles : List Candle) : ValidationResult :=
  SAPANStrategy.validateSetup symbol candles ScenarioType.LongScenario

/-- `SAPANStrategy.ValidateShortSetup`. -/
def SAPANStrategy.ValidateShortSetup (symbol : String) (candles : List Candle) : ValidationResult :=
  SAPANStrategy.validateSetup symbol candles ScenarioType.ShortScenario

/-- `ProcessingResult` from the processor source file; the defaults are
the Go zero values.  The Go `Error error` field becomes `Option String`. -/
structure ProcessingResult where
  Symbol : String := ""
  Success : Bool := false
  Error : Option String := none
  IsValid : Bool := false
  IsLongValid : Bool := false
  IsShortValid : Bool := false
  Message : String := ""
  Processed : Bool := false
deriving DecidableEq

/-- Observable outcome of one `processStock` call: the returned
`ProcessingResult` plus the symbols appended to the Long and Short watch
lists during the call (the Go code's `AddToLongWatchList` /
`AddToShortWatchList` side effects). -/
structure ProcessOutcome where
  result : ProcessingResult
  longAdds : List String
  shortAdds : List String
deriving DecidableEq

/-- `StockProcessor.processStock` from the processor source file.  The
external fetch outcome is passed in as a value: `Except.error e` models a
failed `FetchStockData` call and `Except.ok candles` a successful one.
On success the code validates Long first, validates Short only when Long
is invalid (the declared-then-conditionally-assigned `shortResult` keeps
its zero value otherwise), sets the flags with Long priority, and adds the
symbol to at most one watch list. -/
def StockProcessor.processStock (symbol : String)
    (fetched : Except String (List Candle)) : ProcessOutcome :=
  match fetched with
  | Except.error e =>
      { result := { Symbol := symbol, Processed := true, Error := some e, Success := false },
        longAdds := [], shortAdds := [] }
  | Except.ok candles =>
      let longResult := SAPANStrategy.ValidateLongSetup symbol candles
      let shortResult :=
        if longResult.IsValid then ({} : ValidationResult)
        else SAPANStrategy.ValidateShortSetup symbol candles
      let base : ProcessingResult :=
        { Symbol := symbol, Processed := true, Success := true,
          IsLongValid := longResult.IsValid,
          IsShortValid := !longResult.IsValid && shortResult.IsValid,
          IsValid := longResult.IsValid || shortResult.IsValid }
      if longResult.IsValid then
        { result := { base with Message := longResult.ValidationMessage },
          longAdds := [symbol], shortAdds := [] }
      else if shortResult.IsValid then
        { result := { base with Message := shortResult.ValidationMessage },
          longAdds := [], shortAdds := [symbol] }
      else
        { result := { base with Message := "No valid SAPAN setups detected" },
          longAdds := [], shortAdds := [] }

/-- The per-symbol work of `ProcessStocksConcurrently`: every symbol is
handed to `processStock` exactly once with its own fetch outcome (one
linearization of the worker pool; the spec declares result order
non-deterministic and irrelevant). -/
def StockProcessor.processStocks (fetch : String → Except String (List Candle))
    (symbols : List String) : List ProcessOutcome :=
  symbols.map (fun symbol => StockProcessor.processStock symbol (fetch symbol))

-- ===== THEOREMS =====

/-- Folding over a dropped suffix equals folding the indexed recurrence
over the index range, the bridge between the Go loop
`for i := period; i < len; i++` and its slice translation. -/
theorem foldl_drop_eq_range' (f : ℚ → ℚ → ℚ) (l : List ℚ) :
    ∀ (k n : Nat) (e : ℚ), l.length ≤ n + k →
      (l.drop n).foldl f e =
        (List.range' n (l.length - n)).foldl (fun acc i => f acc (l.getD i 0)) e := by
  intro k
  induction k with
  | zero =>
      intro n e h
      have hn : l.length ≤ n := by omega
      have h0 : l.length - n = 0 := by omega
      rw [List.drop_eq_nil_of_le hn, h0]
      rfl
  | succ k ih =>
      intro n e h
      by_cases hn : l.length ≤ n
      · have h0 : l.length - n = 0 := by omega
        rw [List.drop_eq_nil_of_le hn, h0]
        rfl
      · push_neg at hn
        have hdrop : l.drop n = l[n] :: l.drop (n + 1) := List.drop_eq_getElem_cons hn
        have hcount : l.length - n = (l.length - (n + 1)) + 1 := by omega
        rw [hdrop, hcount, List.range'_succ]
        simp only [List.foldl_cons]
        rw [ih (n + 1) (f e l[n]) (by omega)]
        congr 2
        exact (List.getD_eq_getElem l 0 hn).symm

/-- C5: `EMACalculator.Calculate` returns the sentinel 0 when the series
is shorter than `period`, and otherwise equals the spec's recurrence
(seed = arithmetic mean of the first `period` prices; then
`ema = price[i]·α + ema·(1-α)` with `α = 2/(period+1)` for each index `i`
from `period` to `len-1`), as restated by `emaSpecRecurrence`. -/
theorem ema_sentinel_and_spec_recurrence (prices : List ℚ) (period : Nat) :
    (prices.length < period → EMACalculator.Calculate prices period = 0) ∧
      EMACalculator.Calculate prices period = emaSpecRecurrence prices period := by
  constructor
  · intro h
    simp [EMACalculator.Calculate, h]
  · unfold EMACalculator.Calculate emaSpecRecurrence
    by_cases h : prices.length < period
    · simp [h]
    · simp only [h, if_false]
      exact foldl_drop_eq_range'
        (fun ema price => price * (2 / ((period : ℚ) + 1)) + ema * (1 - 2 / ((period : ℚ) + 1)))
        prices prices.length period _ (by omega)

/-- Witness for C5 at a concrete short series. -/
theorem ema_sentinel_and_spec_recurrence_witness :
    ([(1 : ℚ), 2].length < 5) ∧ EMACalculator.Calculate [(1 : ℚ), 2] 5 = 0 :=
  ⟨by decide, (ema_sentinel_and_spec_recurrence [(1 : ℚ), 2] 5).1 (by decide)⟩

/-- C2: for every scenario and every candle history with fewer than 200
closes, `validateSetup` returns a normal negative verdict: `IsValid =
false`, every gate flag still false, pattern `NoPattern`, and the
insufficient-data reason message. -/
theorem validateSetup_insufficient_data (symbol : String) (candles : List Candle)
    (scenario : ScenarioType) (h : candles.length < 200) :
    SAPANStrategy.validateSetup symbol candles scenario =
      { IsValid := false, EMATrendValid := false, StochasticValid := false, MACDValid := false,
        PatternValid := false, PatternType := PatternType.NoPattern, Symbol := symbol,
        ValidationMessage := "Insufficient data for analysis" } := by
  unfold SAPANStrategy.validateSetup
  have hlen : (SAPANStrategy.extractClosingPrices candles).length < 200 := by
    simpa [SAPANStrategy.extractClosingPrices] using h
  simp [hlen]

/-- Witness for C2 at the empty history and the Long scenario. -/
theorem validateSetup_insufficient_data_witness :
    (([] : List Candle).length < 200) ∧
      SAPANStrategy.validateSetup "AAPL" [] ScenarioType.LongScenario =
        { IsValid := false, EMATrendValid := false, StochasticValid := false, MACDValid := false,
          PatternValid := false, PatternType := PatternType.NoPattern, Symbol := "AAPL",
          ValidationMessage := "Insufficient data for analysis" } :=
  ⟨by decide, validateSetup_insufficient_data "AAPL" [] ScenarioType.LongScenario (by decide)⟩

/-- C9: a failed fetch yields exactly one failure result carrying the
error, with `Success = false`, `IsValid = false`, no validation flags set,
and no watch-list insertion; and the batch produces exactly one result per
symbol whatever each fetch returns (a failure never aborts the rest). -/
theorem processStock_fetch_failure (symbol e : String)
    (fetch : String → Except String (List Candle)) (symbols : List String) :
    StockProcessor.processStock symbol (Except.error e) =
      { result := { Symbol := symbol, Processed := true, Error := some e, Success := false,
                    IsValid := false, IsLongValid := false, IsShortValid := false, Message := "" },
        longAdds := [], shortAdds := [] } ∧
      (StockProcessor.processStocks fetch symbols).length = symbols.length :=
  ⟨rfl, by simp [StockProcessor.processStocks]⟩

/-- C1: after one successful-fetch `processStock` call, the Long and
Short flags are never both set; `IsLongValid` mirrors the Long verdict;
`IsShortValid` is set exactly when Long is invalid and Short validates
(Short is evaluated only then); and the symbol is added to at most one
watch list — Long's exactly when Long validates, Short's exactly when
Long fails and Short validates. -/
theorem processStock_long_short_exclusive (symbol : String) (candles : List Candle) :
    ((StockProcessor.processStock symbol (Except.ok candles)).result.IsLongValid &&
        (StockProcessor.processStock symbol (Except.ok candles)).result.IsShortValid) = false ∧
      (StockProcessor.processStock symbol (Except.ok candles)).result.IsLongValid =
        (SAPANStrategy.ValidateLongSetup symbol candles).IsValid ∧
      (StockProcessor.processStock symbol (Except.ok candles)).result.IsShortValid =
        (!(SAPANStrategy.ValidateLongSetup symbol candles).IsValid &&
          (SAPANStrategy.ValidateShortSetup symbol candles).IsValid) ∧
      (StockProcessor.processStock symbol (Except.ok candles)).longAdds =
        (if (SAPANStrategy.ValidateLongSetup symbol candles).IsValid = true then [symbol]
         else []) ∧
      (StockProcessor.processStock symbol (Except.ok candles)).shortAdds =
        (if (SAPANStrategy.ValidateLongSetup symbol candles).IsValid = false ∧
            (SAPANStrategy.ValidateShortSetup symbol candles).IsValid = true then [symbol]
         else []) ∧
      (StockProcessor.processStock symbol (Except.ok candles)).longAdds.length +
        (StockProcessor.processStock symbol (Except.ok candles)).shortAdds.length ≤ 1 := by
  cases hL : (SAPANStrategy.ValidateLongSetup symbol candles).IsValid <;>
    cases hS : (SAPANStrategy.ValidateShortSetup symbol candles).IsValid <;>
      simp [StockProcessor.processStock, hL, hS]

/-- On a strictly increasing series every per-step change is positive. -/
theorem changes_pos_of_chain (l : List ℚ) (h : List.Chain' (· < ·) l) :
    ∀ x ∈ List.zipWith (fun prev cur => cur - prev) l l.tail, 0 < x := by
  induction l with
  | nil => simp
  | cons a t ih =>
      cases t with
      | nil => simp
      | cons b t' =>
          rw [List.chain'_cons] at h
          intro x hx
          simp only [List.tail_cons, List.zipWith_cons_cons] at hx
          rcases List.mem_cons.mp hx with hx | hx
          · subst hx
            exact sub_pos.mpr h.1
          · exact ih h.2 x hx

/-- The Wilder-smoothing fold keeps the average loss at zero when it
starts at zero and every incoming loss is zero. -/
theorem wilder_fold_snd_zero (p : ℚ) (l : List (ℚ × ℚ)) :
    ∀ g : ℚ, (∀ x ∈ l, x.2 = 0) →
      (l.foldl
          (fun avg gl => ((avg.1 * (p - 1) + gl.1) / p, (avg.2 * (p - 1) + gl.2) / p))
          (g, 0)).2 = 0 := by
  induction l with
  | nil => intro g _; rfl
  | cons a t ih =>
      intro g hall
      have ha : a.2 = 0 := hall a (List.mem_cons_self a t)
      simp only [List.foldl_cons]
      rw [ha]
      simp only [zero_mul, zero_add, zero_div]
      exact ih ((g * (p - 1) + a.1) / p) (fun x hx => hall x (List.mem_cons_of_mem a hx))

/-- C7: on a strictly increasing price series of length at least
`period + 1` (with a meaningful period), the average loss stays exactly
zero through Wilder smoothing and `RSICalculator.Calculate` returns
exactly 100. -/
theorem rsi_strictly_increasing_100 (prices : List ℚ) (period : Nat)
    (hp : 1 ≤ period) (hl : period + 1 ≤ prices.length)
    (hmono : List.Chain' (· < ·) prices) :
    RSICalculator.Calculate prices period = 100 := by
  have hpos := changes_pos_of_chain prices hmono
  have hloss :
      ∀ x ∈ (List.zipWith (fun prev cur => cur - prev) prices prices.tail).map
          (fun change => if 0 < change then 0 else -change), x = (0 : ℚ) := by
    intro x hx
    rcases List.mem_map.mp hx with ⟨c, hc, hcx⟩
    rw [if_pos (hpos c hc)] at hcx
    exact hcx.symm
  simp only [RSICalculator.Calculate]
  rw [if_neg (by omega)]
  rw [if_neg (by
    simp only [List.length_map, List.length_zipWith, List.length_tail]
    omega)]
  have hloss0 :
      (((List.zipWith (fun prev cur => cur - prev) prices prices.tail).map
          (fun change => if 0 < change then 0 else -change)).take period).sum = (0 : ℚ) :=
    List.sum_eq_zero (fun x hx => hloss x (List.take_subset _ _ hx))
  rw [hloss0, zero_div]
  have hmem :
      ∀ x ∈ (((List.zipWith (fun prev cur => cur - prev) prices prices.tail).map
          (fun change => if 0 < change then change else 0)).drop period).zip
          ((((List.zipWith (fun prev cur => cur - prev) prices prices.tail).map
          (fun change => if 0 < change then 0 else -change))).drop period),
        x.2 = (0 : ℚ) := by
    intro x hx
    exact hloss x.2 (List.drop_subset _ _ (List.of_mem_zip hx).2)
  rw [wilder_fold_snd_zero ((period : ℚ)) _ _ hmem]
  simp

/-- Witness for C7 at the concrete series [1, 2, 3] with period 1. -/
theorem rsi_strictly_increasing_100_witness :
    ((1 : Nat) ≤ 1 ∧ 1 + 1 ≤ [(1 : ℚ), 2, 3].length ∧
        List.Chain' (· < ·) [(1 : ℚ), 2, 3]) ∧
      RSICalculator.Calculate [(1 : ℚ), 2, 3] 1 = 100 :=
  ⟨⟨by decide, by decide, by norm_num [List.chain'_cons]⟩,
    rsi_strictly_increasing_100 [(1 : ℚ), 2, 3] 1 (by decide) (by decide)
      (by norm_num [List.chain'_cons])⟩

/-- Length of the RSI trajectory. -/
theorem rsiSequence_length (prices : List ℚ) (r : Nat) :
    (StochasticRSICalculator.rsiSequence prices r).length = prices.length - r := by
  simp [StochasticRSICalculator.rsiSequence]

/-- Length of the %K trajectory. -/
theorem stochKValues_length (prices : List ℚ) (r k : Nat) :
    (StochasticRSICalculator.stochKValues prices r k).length =
      (prices.length - r) - (k - 1) := by
  simp [StochasticRSICalculator.stochKValues, rsiSequence_length]

/-- C3: the crossover flag equals exactly the test "previous %K below
previous %D, current %K above current %D, previous %K below 30" (with %D
the simple average of the trailing `d` %K values), and this very flag is
what both `IsOversoldWithCrossover` (plus %K < 30) and
`IsOverboughtWithCrossover` (plus %K > 70) consume, unchanged. -/
theorem stochastic_crossover_characterization (prices : List ℚ) (r k d : Nat)
    (hk : 1 ≤ k) (hd : 1 ≤ d) (hlen : r + k + d ≤ prices.length) :
    StochasticRSICalculator.IsOversoldWithCrossover prices r k d =
      (decide ((StochasticRSICalculator.Calculate prices r k d).K < 30) &&
        (StochasticRSICalculator.Calculate prices r k d).Crossover) ∧
      StochasticRSICalculator.IsOverboughtWithCrossover prices r k d =
        (decide ((StochasticRSICalculator.Calculate prices r k d).K > 70) &&
          (StochasticRSICalculator.Calculate prices r k d).Crossover) ∧
      (StochasticRSICalculator.Calculate prices r k d).Crossover =
        (decide ((StochasticRSICalculator.stochKValues prices r k).getD
            ((StochasticRSICalculator.stochKValues prices r k).length - 2) 0 <
          ((StochasticRSICalculator.stochKValues prices r k).dropLast.drop
            ((StochasticRSICalculator.stochKValues prices r k).dropLast.length - d)).sum /
            (d : ℚ)) &&
         decide ((StochasticRSICalculator.stochKValues prices r k).getLastD 0 >
          ((StochasticRSICalculator.stochKValues prices r k).drop
            ((StochasticRSICalculator.stochKValues prices r k).length - d)).sum / (d : ℚ)) &&
         decide ((StochasticRSICalculator.stochKValues prices r k).getD
            ((StochasticRSICalculator.stochKValues prices r k).length - 2) 0 < 30)) := by
  refine ⟨rfl, rfl, ?_⟩
  have hks : (StochasticRSICalculator.stochKValues prices r k).length =
      (prices.length - r) - (k - 1) := stochKValues_length prices r k
  simp only [StochasticRSICalculator.Calculate]
  rw [if_neg (by omega)]
  rw [if_neg (by rw [rsiSequence_length]; omega)]
  rw [if_neg (by rw [hks]; omega)]
  rw [if_pos (by rw [hks]; omega)]
  rw [if_pos (by rw [hks]; omega)]

/-- Witness for C3: the crossover test and its reuse at a concrete
11-point series with the production periods 5/3/3. -/
theorem stochastic_crossover_characterization_witness :
    ((1 : Nat) ≤ 3 ∧ (1 : Nat) ≤ 3 ∧
        5 + 3 + 3 ≤ [(1 : ℚ), 2, 3, 4, 5, 6, 7, 8, 9, 10, 11].length) ∧
      StochasticRSICalculator.IsOversoldWithCrossover
          [(1 : ℚ), 2, 3, 4, 5, 6, 7, 8, 9, 10, 11] 5 3 3 =
        (decide ((StochasticRSICalculator.Calculate
            [(1 : ℚ), 2, 3, 4, 5, 6, 7, 8, 9, 10, 11] 5 3 3).K < 30) &&
          (StochasticRSICalculator.Calculate
            [(1 : ℚ), 2, 3, 4, 5, 6, 7, 8, 9, 10, 11] 5 3 3).Crossover) :=
  ⟨⟨by decide, by decide, by decide⟩,
    (stochastic_crossover_characterization [(1 : ℚ), 2, 3, 4, 5, 6, 7, 8, 9, 10, 11] 5 3 3
      (by decide) (by decide) (by decide)).1⟩

/-- The seed of a `max`-fold is a lower bound of the fold. -/
theorem le_foldl_max (l : List ℚ) : ∀ a : ℚ, a ≤ l.foldl max a := by
  induction l with
  | nil => intro a; simp
  | cons b t ih =>
      intro a
      simp only [List.foldl_cons]
      exact le_trans (le_max_left a b) (ih (max a b))

/-- Every member of a `max`-fold is bounded by the fold. -/
theorem mem_le_foldl_max (l : List ℚ) : ∀ (a x : ℚ), x ∈ l → x ≤ l.foldl max a := by
  induction l with
  | nil => intro a x hx; cases hx
  | cons b t ih =>
      intro a x hx
      simp only [List.foldl_cons]
      rcases List.mem_cons.mp hx with h | h
      · subst h
        exact le_trans (le_max_right a x) (le_foldl_max t (max a x))
      · exact ih (max a b) x h

/-- The seed of a `min`-fold is an upper bound of the fold. -/
theorem foldl_min_le (l : List ℚ) : ∀ a : ℚ, l.foldl min a ≤ a := by
  induction l with
  | nil => intro a; simp
  | cons b t ih =>
      intro a
      simp only [List.foldl_cons]
      exact le_trans (ih (min a b)) (min_le_left a b)

/-- The `min`-fold is bounded by every member of the list. -/
theorem foldl_min_le_mem (l : List ℚ) : ∀ (a x : ℚ), x ∈ l → l.foldl min a ≤ x := by
  induction l with
  | nil => intro a x hx; cases hx
  | cons b t ih =>
      intro a x hx
      simp only [List.foldl_cons]
      rcases List.mem_cons.mp hx with h | h
      · subst h
        exact le_trans (foldl_min_le t (min a x)) (min_le_right a x)
      · exact ih (min a b) x h

/-- `getLastD` of a nonempty list is one of its members. -/
theorem getLastD_mem (y : ℚ) (ys : List ℚ) : (y :: ys).getLastD 0 ∈ y :: ys := by
  induction ys generalizing y with
  | nil => simp
  | cons z zs ih =>
      have h : (y :: z :: zs).getLastD 0 = (z :: zs).getLastD 0 := by
        simp [List.getLast?_cons_cons]
      rw [h]
      exact List.mem_cons_of_mem y (ih z)

/-- Every member of a window is at most its `windowHigh`. -/
theorem mem_le_windowHigh (y x : ℚ) (ys : List ℚ) (hx : x ∈ y :: ys) :
    x ≤ StochasticRSICalculator.windowHigh (y :: ys) := by
  simp only [StochasticRSICalculator.windowHigh]
  rcases List.mem_cons.mp hx with h | h
  · subst h
    exact le_foldl_max ys x
  · exact mem_le_foldl_max ys y x h

/-- The `windowLow` is at most every member of the window. -/
theorem windowLow_le_mem (y x : ℚ) (ys : List ℚ) (hx : x ∈ y :: ys) :
    StochasticRSICalculator.windowLow (y :: ys) ≤ x := by
  simp only [StochasticRSICalculator.windowLow]
  rcases List.mem_cons.mp hx with h | h
  · subst h
    exact foldl_min_le ys x
  · exact foldl_min_le_mem ys y x h

/-- Any %K value of a nonempty RSI window lies in [0, 100]. -/
theorem stochKOf_bounds (w : List ℚ) (hw : w ≠ []) :
    0 ≤ StochasticRSICalculator.stochKOf w ∧ StochasticRSICalculator.stochKOf w ≤ 100 := by
  obtain ⟨y, ys, rfl⟩ := List.exists_cons_of_ne_nil hw
  by_cases h : StochasticRSICalculator.windowHigh (y :: ys) =
      StochasticRSICalculator.windowLow (y :: ys)
  · simp only [StochasticRSICalculator.stochKOf, if_pos h]
    norm_num
  · simp only [StochasticRSICalculator.stochKOf, if_neg h]
    have hcur := getLastD_mem y ys
    have hcurhi := mem_le_windowHigh y _ ys hcur
    have hcurlo := windowLow_le_mem y _ ys hcur
    have hyhi := mem_le_windowHigh y y ys (List.mem_cons_self y ys)
    have hylo := windowLow_le_mem y y ys (List.mem_cons_self y ys)
    have hlt : StochasticRSICalculator.windowLow (y :: ys) <
        StochasticRSICalculator.windowHigh (y :: ys) :=
      lt_of_le_of_ne (le_trans hylo hyhi) (fun hc => h hc.symm)
    have hpos : (0 : ℚ) < StochasticRSICalculator.windowHigh (y :: ys) -
        StochasticRSICalculator.windowLow (y :: ys) := sub_pos.mpr hlt
    constructor
    · exact mul_nonneg (div_nonneg (sub_nonneg.mpr hcurlo) hpos.le) (by norm_num)
    · have hdiv : ((y :: ys).getLastD 0 - StochasticRSICalculator.windowLow (y :: ys)) /
          (StochasticRSICalculator.windowHigh (y :: ys) -
            StochasticRSICalculator.windowLow (y :: ys)) ≤ 1 :=
        (div_le_one hpos).mpr (by linarith)
      nlinarith [hdiv, hpos]

/-- Every member of the %K trajectory is the %K of a nonempty window. -/
theorem stochKValues_mem_window (prices : List ℚ) (r k : Nat) (hk : 1 ≤ k) (x : ℚ)
    (hx : x ∈ StochasticRSICalculator.stochKValues prices r k) :
    ∃ w : List ℚ, w ≠ [] ∧ x = StochasticRSICalculator.stochKOf w := by
  simp only [StochasticRSICalculator.stochKValues, List.mem_map] at hx
  obtain ⟨i, hi, rfl⟩ := hx
  rw [List.mem_range'_1] at hi
  refine ⟨_, ?_, rfl⟩
  intro hnil
  have hlen := congrArg List.length hnil
  simp only [List.length_take, List.length_drop, List.length_nil] at hlen
  rcases Nat.min_eq_zero_iff.mp hlen with h | h <;> omega

/-- C6: every %K value produced by the Stochastic RSI computation lies in
[0, 100], and a window whose highest RSI equals its lowest yields
%K = 50 exactly. -/
theorem stochK_in_range_and_flat_window_50 (prices : List ℚ) (r k : Nat) (hk : 1 ≤ k)
    (x : ℚ) (hx : x ∈ StochasticRSICalculator.stochKValues prices r k) (w : List ℚ)
    (hw : StochasticRSICalculator.windowHigh w = StochasticRSICalculator.windowLow w) :
    (0 ≤ x ∧ x ≤ 100) ∧ StochasticRSICalculator.stochKOf w = 50 := by
  constructor
  · obtain ⟨w', hw', rfl⟩ := stochKValues_mem_window prices r k hk x hx
    exact stochKOf_bounds w' hw'
  · simp [StochasticRSICalculator.stochKOf, hw]

/-- Witness for C6 at the series [1, 2] with periods 1/1 (whose only %K
value is 50) and the flat window [7, 7]. -/
theorem stochK_in_range_and_flat_window_50_witness :
    ((1 : Nat) ≤ 1 ∧ (50 : ℚ) ∈ StochasticRSICalculator.stochKValues [(1 : ℚ), 2] 1 1 ∧
        StochasticRSICalculator.windowHigh [(7 : ℚ), 7] =
          StochasticRSICalculator.windowLow [(7 : ℚ), 7]) ∧
      ((0 ≤ (50 : ℚ) ∧ (50 : ℚ) ≤ 100) ∧
        StochasticRSICalculator.stochKOf [(7 : ℚ), 7] = 50) :=
  ⟨⟨by decide,
    by
      norm_num [StochasticRSICalculator.stochKValues, StochasticRSICalculator.rsiSequence,
        StochasticRSICalculator.stochKOf, StochasticRSICalculator.windowHigh,
        StochasticRSICalculator.windowLow, RSICalculator.Calculate, List.range'],
    by norm_num [StochasticRSICalculator.windowHigh, StochasticRSICalculator.windowLow]⟩,
    stochK_in_range_and_flat_window_50 [(1 : ℚ), 2] 1 1 (by decide) 50
      (by
        norm_num [StochasticRSICalculator.stochKValues, StochasticRSICalculator.rsiSequence,
          StochasticRSICalculator.stochKOf, StochasticRSICalculator.windowHigh,
          StochasticRSICalculator.windowLow, RSICalculator.Calculate, List.range'])
      [(7 : ℚ), 7]
      (by norm_num [StochasticRSICalculator.windowHigh, StochasticRSICalculator.windowLow])⟩

/-- The Go backward bear scan equals (capped at 6) the count of
consecutive trailing MACD-computable prefixes that stay at or below the
signal line. -/
theorem bearScan_eq_streak (prices : List ℚ) (f s sp : Nat) :
    ∀ (j c : Nat), j < prices.length → c ≤ 6 →
      MACDCalculator.bearScan prices f s sp j c =
        min 6 (c + (((downFrom j).filter (fun i => decide (s ≤ i + 1))).takeWhile
          (fun i => decide ((MACDCalculator.macdUpTo prices f s sp i).MACD ≤
            (MACDCalculator.macdUpTo prices f s sp i).Signal))).length) := by
  intro j
  induction j with
  | zero =>
      intro c _ hc
      simp only [MACDCalculator.bearScan, downFrom, List.filter_nil, List.takeWhile_nil,
        List.length_nil]
      omega
  | succ j ih =>
      intro c hj hc
      simp only [MACDCalculator.bearScan]
      by_cases h6 : 6 ≤ c
      · rw [if_pos h6]
        omega
      · rw [if_neg h6]
        have hmu : MACDCalculator.Calculate (prices.take (j + 2)) f s sp =
            MACDCalculator.macdUpTo prices f s sp (j + 1) := rfl
        rw [hmu]
        have hsub : (prices.take (j + 2)).length = j + 2 := by
          rw [List.length_take]
          omega
        rw [hsub]
        simp only [downFrom, List.filter_cons, decide_eq_true_eq]
        have e2 : j + 1 + 1 = j + 2 := rfl
        rw [e2]
        by_cases hcnt : s ≤ j + 2
        · rw [if_pos hcnt, if_pos hcnt]
          simp only [List.takeWhile_cons, decide_eq_true_eq]
          by_cases hbear : (MACDCalculator.macdUpTo prices f s sp (j + 1)).MACD ≤
              (MACDCalculator.macdUpTo prices f s sp (j + 1)).Signal
          · rw [if_pos hbear, if_pos hbear]
            rw [ih (c + 1) (by omega) (by omega)]
            simp only [List.length_cons]
            omega
          · rw [if_neg hbear, if_neg hbear]
            simp only [List.length_nil]
            omega
        · rw [if_neg hcnt, if_neg hcnt]
          rw [ih c (by omega) hc]

/-- Mirror image of `bearScan_eq_streak` for the bull scan. -/
theorem bullScan_eq_streak (prices : List ℚ) (f s sp : Nat) :
    ∀ (j c : Nat), j < prices.length → c ≤ 6 →
      MACDCalculator.bullScan prices f s sp j c =
        min 6 (c + (((downFrom j).filter (fun i => decide (s ≤ i + 1))).takeWhile
          (fun i => decide ((MACDCalculator.macdUpTo prices f s sp i).MACD ≥
            (MACDCalculator.macdUpTo prices f s sp i).Signal))).length) := by
  intro j
  induction j with
  | zero =>
      intro c _ hc
      simp only [MACDCalculator.bullScan, downFrom, List.filter_nil, List.takeWhile_nil,
        List.length_nil]
      omega
  | succ j ih =>
      intro c hj hc
      simp only [MACDCalculator.bullScan]
      by_cases h6 : 6 ≤ c
      · rw [if_pos h6]
        omega
      · rw [if_neg h6]
        have hmu : MACDCalculator.Calculate (prices.take (j + 2)) f s sp =
            MACDCalculator.macdUpTo prices f s sp (j + 1) := rfl
        rw [hmu]
        have hsub : (prices.take (j + 2)).length = j + 2 := by
          rw [List.length_take]
          omega
        rw [hsub]
        simp only [downFrom, List.filter_cons, decide_eq_true_eq]
        have e2 : j + 1 + 1 = j + 2 := rfl
        rw [e2]
        by_cases hcnt : s ≤ j + 2
        · rw [if_pos hcnt, if_pos hcnt]
          simp only [List.takeWhile_cons, decide_eq_true_eq]
          by_cases hbull : (MACDCalculator.macdUpTo prices f s sp (j + 1)).MACD ≥
              (MACDCalculator.macdUpTo prices f s sp (j + 1)).Signal
          · rw [if_pos hbull, if_pos hbull]
            rw [ih (c + 1) (by omega) (by omega)]
            simp only [List.length_cons]
            omega
          · rw [if_neg hbull, if_neg hbull]
            simp only [List.length_nil]
            omega
        · rw [if_neg hcnt, if_neg hcnt]
          rw [ih c (by omega) hc]

/-- C4: `IsBearMarketAcceptable` is true exactly when the full-series
MACD is above its signal line (bull market, immediate acceptance) or the
backward scan over truncated prefixes counts at most 5 consecutive
at-or-below-signal bars (count capped at 6, scan stopping at the first
bullish prefix), as restated by `specBearStreak`; and
`IsBullMarketAcceptable` is the exact mirror image via `specBullStreak`. -/
theorem macd_market_duration_characterization (prices : List ℚ) (f s sp : Nat) :
    MACDCalculator.IsBearMarketAcceptable prices f s sp =
      (decide ((MACDCalculator.Calculate prices f s sp).MACD >
          (MACDCalculator.Calculate prices f s sp).Signal) ||
        decide (specBearStreak prices f s sp ≤ 5)) ∧
      MACDCalculator.IsBullMarketAcceptable prices f s sp =
        (decide ((MACDCalculator.Calculate prices f s sp).MACD <
            (MACDCalculator.Calculate prices f s sp).Signal) ||
          decide (specBullStreak prices f s sp ≤ 5)) := by
  constructor
  · simp only [MACDCalculator.IsBearMarketAcceptable]
    by_cases hbull : (MACDCalculator.Calculate prices f s sp).MACD >
        (MACDCalculator.Calculate prices f s sp).Signal
    · simp [hbull]
    · rw [if_neg hbull]
      simp only [decide_eq_false hbull, Bool.false_or]
      by_cases hlen : prices.length = 0
      · simp [specBearStreak, hlen, MACDCalculator.bearScan, downFrom]
      · rw [bearScan_eq_streak prices f s sp (prices.length - 1) 0 (by omega) (by omega)]
        simp [specBearStreak]
  · simp only [MACDCalculator.IsBullMarketAcceptable]
    by_cases hbear : (MACDCalculator.Calculate prices f s sp).MACD <
        (MACDCalculator.Calculate prices f s sp).Signal
    · simp [hbear]
    · rw [if_neg hbear]
      simp only [decide_eq_false hbear, Bool.false_or]
      by_cases hlen : prices.length = 0
      · simp [specBullStreak, hlen, MACDCalculator.bullScan, downFrom]
      · rw [bullScan_eq_streak prices f s sp (prices.length - 1) 0 (by omega) (by omega)]
        simp [specBullStreak]

/-- C8: `DetectAllPatterns` is the first-match cascade over the four
variant predicates in the fixed priority order Long2, Short2, LongPinbar,
ShortPinbar (returning `NoPattern` when none matches), and on a concrete
tail that satisfies both the Long 2-candlestick predicate and the Long
pinbar predicate it returns the 2-candlestick variant. -/
theorem detectAllPatterns_priority (candles : List Candle) (ema20 ema50 ema100 ema200 : ℚ) :
    CandlestickPatternDetector.DetectAllPatterns candles ema20 ema50 ema100 ema200 =
      (if CandlestickPatternDetector.DetectLong2CandlestickReversal candles
          ema20 ema50 ema100 ema200 then PatternType.Long2CandlestickReversal
       else if CandlestickPatternDetector.DetectShort2CandlestickReversal candles
          ema20 ema50 ema100 ema200 then PatternType.Short2CandlestickReversal
       else if CandlestickPatternDetector.DetectLongPinbarReversal candles
          ema20 ema50 ema100 ema200 then PatternType.LongPinbarReversal
       else if CandlestickPatternDetector.DetectShortPinbarReversal candles
          ema20 ema50 ema100 ema200 then PatternType.ShortPinbarReversal
       else PatternType.NoPattern) ∧
      CandlestickPatternDetector.DetectLong2CandlestickReversal bothPatternTail 10 10 10 10 =
        true ∧
      CandlestickPatternDetector.DetectLongPinbarReversal bothPatternTail 10 10 10 10 = true ∧
      CandlestickPatternDetector.DetectAllPatterns bothPatternTail 10 10 10 10 =
        PatternType.Long2CandlestickReversal := by
  refine ⟨?_, ?_, ?_, ?_⟩
  · by_cases hlen : candles.length < 3
    · simp [CandlestickPatternDetector.DetectAllPatterns,
        CandlestickPatternDetector.DetectLong2CandlestickReversal,
        CandlestickPatternDetector.DetectShort2CandlestickReversal,
        CandlestickPatternDetector.DetectLongPinbarReversal,
        CandlestickPatternDetector.DetectShortPinbarReversal, hlen]
    · simp [CandlestickPatternDetector.DetectAllPatterns, hlen]
  · norm_num [bothPatternTail, CandlestickPatternDetector.DetectLong2CandlestickReversal,
      CandlestickPatternDetector.isReversalBodyAboveSupport,
      CandlestickPatternDetector.isTailPiercingSupport,
      CandlestickPatternDetector.isBullishConfirmation,
      CandlestickPatternDetector.getLowestEMA, List.getD_cons_zero, List.getD_cons_succ]
  · norm_num [bothPatternTail, CandlestickPatternDetector.DetectLongPinbarReversal,
      CandlestickPatternDetector.isBullishPinbar, goRatioGT, goRatioGE,
      CandlestickPatternDetector.isBullishConfirmation,
      CandlestickPatternDetector.getLowestEMA, List.getD_cons_zero, List.getD_cons_succ]
  · norm_num [bothPatternTail, CandlestickPatternDetector.DetectAllPatterns,
      CandlestickPatternDetector.DetectLong2CandlestickReversal,
      CandlestickPatternDetector.isReversalBodyAboveSupport,
      CandlestickPatternDetector.isTailPiercingSupport,
      CandlestickPatternDetector.isBullishConfirmation,
      CandlestickPatternDetector.getLowestEMA, List.getD_cons_zero, List.getD_cons_succ]

/-- Counterexample to C10 as stated: the zero-range candle with
Open = Close = 2 and High = Low = 1 (malformed OHLC data, with the body
outside the high/low range) has `High = Low`, yet `isBullishPinbar`
classifies it as a pinbar, because in Go `bodySize/totalRange = 0/0` is
NaN (so the body test does not reject) while
`lowerWick/totalRange = 1/0 = +Inf ≥ 0.6`. -/
theorem pinbar_zero_range_counterexample :
    (Candle.mk 2 1 1 2).High = (Candle.mk 2 1 1 2).Low ∧
      CandlestickPatternDetector.isBullishPinbar (Candle.mk 2 1 1 2) = true := by
  refine ⟨rfl, ?_⟩
  norm_num [CandlestickPatternDetector.isBullishPinbar, goRatioGT, goRatioGE]

/-- C10 (amended): for every well-formed candle (open and close within
the low/high range) whose High equals its Low, both pinbar detectors
return false — the degenerate zero-range candle is never classified as a
pinbar reversal. -/
theorem pinbar_zero_range_well_formed_false (c : Candle) (hhl : c.High = c.Low)
    (h1 : c.Low ≤ c.Open) (h2 : c.Open ≤ c.High) (h3 : c.Low ≤ c.Close)
    (h4 : c.Close ≤ c.High) :
    CandlestickPatternDetector.isBullishPinbar c = false ∧
      CandlestickPatternDetector.isBearishPinbar c = false := by
  have ho : c.Open = c.Low := le_antisymm (hhl ▸ h2) h1
  have hc : c.Close = c.Low := le_antisymm (hhl ▸ h4) h3
  constructor <;>
    simp [CandlestickPatternDetector.isBullishPinbar,
      CandlestickPatternDetector.isBearishPinbar, goRatioGT, goRatioGE, hhl, ho, hc,
      sub_self, abs_zero, min_self, max_self, lt_irrefl]

/-- Witness for the amended C10 at the flat candle 5/5/5/5. -/
theorem pinbar_zero_range_well_formed_false_witness :
    ((Candle.mk 5 5 5 5).High = (Candle.mk 5 5 5 5).Low ∧
        (Candle.mk 5 5 5 5).Low ≤ (Candle.mk 5 5 5 5).Open ∧
        (Candle.mk 5 5 5 5).Open ≤ (Candle.mk 5 5 5 5).High ∧
        (Candle.mk 5 5 5 5).Low ≤ (Candle.mk 5 5 5 5).Close ∧
        (Candle.mk 5 5 5 5).Close ≤ (Candle.mk 5 5 5 5).High) ∧
      (CandlestickPatternDetector.isBullishPinbar (Candle.mk 5 5 5 5) = false ∧
        CandlestickPatternDetector.isBearishPinbar (Candle.mk 5 5 5 5) = false) :=
  ⟨⟨rfl, le_refl _, le_refl _, le_refl _, le_refl _⟩,
    pinbar_zero_range_well_formed_false (Candle.mk 5 5 5 5) rfl (le_refl _) (le_refl _)
      (le_refl _) (le_refl _)⟩
